import Mathlib

/-!
Shallow embedding of the scene-graph core of the Chitrapata editor:
`src/store/canvasStore.ts` (the full hierarchical store, the one defining
`getFlattenedShapes`, `createGroup`, `ungroup`, `moveShapeToParent`,
`duplicateSelectedShapes`, …) together with the `Shape` data model from
`src/lib/webgl/types.ts`.

Modelling conventions:
* JavaScript numbers are modelled as rationals (`ℚ`).
* `Partial<Shape>` patches are option-valued records.  For `parentId` a
  two-level option distinguishes an absent key (`none`) from a key that is
  present with the value `undefined` (`some none`) — object spread treats
  the two differently, and so does `updateShape`'s re-parenting guard.
* `uuidv4()` is modelled by explicitly supplied fresh ids.
* Recursions that walk the child graph through id lookups take explicit
  fuel; the JavaScript versions would not terminate on a cyclic store
  either, and every caller below supplies fuel larger than the number of
  shapes, which suffices on acyclic stores.
* JavaScript falsiness is modelled explicitly: `jsOr` is `||` on numbers
  (`0` is falsy) and `strTruthy` is truthiness of an optional string
  (`undefined` and `""` are falsy).
-/

namespace Chitrapata

/-- JavaScript `a || b` for numbers: `0` is falsy. -/
def jsOr (a b : ℚ) : ℚ := if a = 0 then b else a

/-- JavaScript `v || d` where `v` is an optional number (`undefined` is falsy). -/
def jsOrOpt (v : Option ℚ) (d : ℚ) : ℚ :=
  match v with
  | none => d
  | some q => jsOr q d

/-- JavaScript truthiness of `string | undefined` (`undefined` and `""` are falsy). -/
def strTruthy : Option String → Bool
  | none => false
  | some s => !s.isEmpty

@[simp] theorem jsOr_zero_right (a : ℚ) : jsOr a 0 = a := by
  unfold jsOr; split <;> simp_all

theorem jsOr_one_one : jsOr 1 1 = 1 := by unfold jsOr; simp

/-- `ShapeType` from `src/lib/webgl/types.ts`. -/
inductive ShapeType where
  | rectangle
  | ellipse
  | line
  | frame
  | group
deriving Repr, DecidableEq

/-- String form of a shape type, as used in template literals in the source. -/
def shapeTypeName : ShapeType → String
  | .rectangle => "rectangle"
  | .ellipse => "ellipse"
  | .line => "line"
  | .frame => "frame"
  | .group => "group"

structure Point where
  x : ℚ
  y : ℚ
deriving Repr, DecidableEq

structure Bounds where
  x : ℚ
  y : ℚ
  width : ℚ
  height : ℚ
deriving Repr, DecidableEq

/-- The derived `absoluteTransform` record (`types.ts`). -/
structure AbsoluteTransform where
  x : ℚ
  y : ℚ
  rotation : ℚ
  scale : ℚ
deriving Repr, DecidableEq

/-- The `Shape` entity (`src/lib/webgl/types.ts`).  `type` is a Lean keyword,
so the field is called `ty`.  `clipContent`/`autoResize` are optional in the
TypeScript interface but are always set by `addShape`/`createFrame`/
`createGroup`, the only shape constructors, so they are modelled total. -/
structure Shape where
  id : String
  ty : ShapeType
  x : ℚ
  y : ℚ
  width : ℚ
  height : ℚ
  fill : String
  stroke : String
  strokeWidth : ℚ
  rotation : ℚ
  zIndex : ℚ
  isVisible : Bool
  isLocked : Bool
  name : Option String
  parentId : Option String
  childIds : List String
  isContainer : Bool
  clipContent : Bool
  autoResize : Bool
  absoluteTransform : Option AbsoluteTransform
deriving Repr, DecidableEq

/-- Gesture state (`SelectionState` in the source).  `ResizeHandle` below covers
the eight geometric handles; the ninth source value `"rotate"` drives the
trigonometric rotation branch (source lines 1264–1299, `atan2`-based), which is
outside this rational-arithmetic embedding and outside the resize claims. -/
inductive ResizeHandle where
  | topLeft
  | topRight
  | bottomLeft
  | bottomRight
  | top
  | right
  | bottom
  | left
deriving Repr, DecidableEq

structure SelectionState where
  selectedShapeId : Option String
  activeHandle : Option ResizeHandle
  initialMousePos : Option Point
  initialShapeBounds : Option Bounds
deriving Repr, DecidableEq

/-- The flatten cache (`cache` in the store). -/
structure FlattenCache where
  flattenedShapes : List Shape
  needsUpdate : Bool
deriving Repr, DecidableEq

/-- The slice of the zustand store state that the modelled operations read or
write: `shapes`, the selection fields, the gesture state and the flatten
cache.  UI-only fields (`scale`, `canvasOffset`, drag flags, …) are not
touched by any modelled operation and are omitted. -/
structure CanvasState where
  shapes : List Shape
  selectedShapeId : Option String
  selectedShapeIds : List String
  selectionState : SelectionState
  cache : FlattenCache
deriving Repr, DecidableEq

/-- The store's initial state. -/
def initialCanvasState : CanvasState :=
  { shapes := []
    selectedShapeId := none
    selectedShapeIds := []
    selectionState :=
      { selectedShapeId := none
        activeHandle := none
        initialMousePos := none
        initialShapeBounds := none }
    cache := { flattenedShapes := [], needsUpdate := true } }

/-- `updatedShapes[i] = f(updatedShapes[i])` on a list: out-of-range indices
leave the list unchanged (the source always guards with `findIndex !== -1`). -/
def updateAtIdx (l : List Shape) (i : Nat) (f : Shape → Shape) : List Shape :=
  match l[i]? with
  | none => l
  | some s => l.set i (f s)

/-- `calculateGroupBounds` (source lines 395–430): bounding box over the
shapes' `absoluteTransform ?? x/y` positions.  The `±Infinity` initial
accumulators of the source are modelled by an `Option` accumulator that is
`none` until the first shape has been folded in. -/
def calculateGroupBounds (shapes : List Shape) : Bounds :=
  if shapes.length = 0 then ⟨0, 0, 0, 0⟩
  else
    let step : Option (ℚ × ℚ × ℚ × ℚ) → Shape → Option (ℚ × ℚ × ℚ × ℚ) :=
      fun acc shape =>
        let x := match shape.absoluteTransform with
          | some t => t.x
          | none => shape.x
        let y := match shape.absoluteTransform with
          | some t => t.y
          | none => shape.y
        match acc with
        | none => some (x, y, x + shape.width, y + shape.height)
        | some (minX, minY, maxX, maxY) =>
            some (min minX x, min minY y, max maxX (x + shape.width), max maxY (y + shape.height))
    match shapes.foldl step none with
    | none => ⟨0, 0, 0, 0⟩
    | some (minX, minY, maxX, maxY) => ⟨minX, minY, maxX - minX, maxY - minY⟩

/-- `calculateBoundsForChildren` (source lines 432–465): width/height of the
bounding box of the children's local rectangles. -/
def calculateBoundsForChildren (shapes : List Shape) : ℚ × ℚ :=
  if shapes.length = 0 then (0, 0)
  else
    let step : Option (ℚ × ℚ × ℚ × ℚ) → Shape → Option (ℚ × ℚ × ℚ × ℚ) :=
      fun acc shape =>
        match acc with
        | none => some (shape.x, shape.y, shape.x + shape.width, shape.y + shape.height)
        | some (minX, minY, maxX, maxY) =>
            some (min minX shape.x, min minY shape.y,
                  max maxX (shape.x + shape.width), max maxY (shape.y + shape.height))
    match shapes.foldl step none with
    | none => (0, 0)
    | some (minX, minY, maxX, maxY) => (maxX - minX, maxY - minY)

/-- `getNextZIndex` (source lines 507–512):
`shapes.reduce((max, shape) => Math.max(max, shape.zIndex || 0), 0) + 1`. -/
def getNextZIndex (shapes : List Shape) : ℚ :=
  shapes.foldl (fun m s => max m (jsOr s.zIndex 0)) 0 + 1

/-- `collectDescendants` inside `getDescendantIds` (source lines 520–536),
with fuel for the lookup-driven recursion. -/
def collectDescendants (shapes : List Shape) : Nat → String → List String
  | 0, _ => []
  | fuel + 1, shapeId =>
    match shapes.find? (fun s => s.id == shapeId) with
    | none => []
    | some shape =>
      if shape.childIds.length = 0 then []
      else shape.childIds.flatMap (fun childId => childId :: collectDescendants shapes fuel childId)

/-- `getDescendantIds` (source lines 520–536). -/
def getDescendantIds (shapes : List Shape) (id : String) : List String :=
  collectDescendants shapes (shapes.length + 1) id

/-! ## The Transform Flattener (`getFlattenedShapes`, source lines 539–610) -/

/-- Stable insertion of `a` into an already sorted list: `a` goes in front of
the first element `b` with `le a b`, hence after every tie that was already
present. -/
def insertByLe (le : Shape → Shape → Bool) (a : Shape) : List Shape → List Shape
  | [] => [a]
  | b :: t => if le a b then a :: b :: t else b :: insertByLe le a t

/-- Stable sort by a boolean comparator.  `Array.prototype.sort` is stable,
and for a total comparator every stable sort produces the same list, so the
stable insertion sort below models it faithfully (and, unlike
`List.mergeSort`, reduces inside the kernel). -/
def sortByLe (le : Shape → Shape → Bool) (l : List Shape) : List Shape :=
  l.foldr (insertByLe le) []

/-- Ascending-`zIndex` stable sort: the source sorts with the comparator
`(a, b) => (a.zIndex || 0) - (b.zIndex || 0)`. -/
def sortByZIndex (l : List Shape) : List Shape :=
  sortByLe (fun a b => decide (jsOr a.zIndex 0 ≤ jsOr b.zIndex 0)) l

theorem mem_insertByLe {le : Shape → Shape → Bool} {x a : Shape} :
    ∀ {l : List Shape}, x ∈ insertByLe le a l ↔ x = a ∨ x ∈ l := by
  intro l
  induction l with
  | nil => simp [insertByLe]
  | cons c t ih =>
    by_cases h : le a c = true
    · simp [insertByLe, h, List.mem_cons]
    · simp only [insertByLe, h, if_false, Bool.false_eq_true, List.mem_cons, ih]
      tauto

theorem mem_sortByLe {le : Shape → Shape → Bool} {x : Shape} :
    ∀ {l : List Shape}, x ∈ sortByLe le l ↔ x ∈ l := by
  intro l
  induction l with
  | nil => simp [sortByLe]
  | cons c t ih =>
    show x ∈ insertByLe le c (sortByLe le t) ↔ _
    rw [mem_insertByLe, ih]
    simp [List.mem_cons]

theorem mem_sortByZIndex {x : Shape} {l : List Shape} : x ∈ sortByZIndex l ↔ x ∈ l :=
  mem_sortByLe

/-- Root shapes: `state.shapes.filter((s) => !s.parentId)`. -/
def rootShapesOf (shapes : List Shape) : List Shape :=
  shapes.filter (fun s => !strTruthy s.parentId)

/-- Child resolution inside `processShape`:
`shape.childIds.map((id) => state.shapes.find(...)).filter(Boolean)`. -/
def resolveChildren (shapes : List Shape) (shape : Shape) : List Shape :=
  shape.childIds.filterMap (fun childId => shapes.find? (fun s => s.id == childId))

/-- The absolute-transform recurrence computed inline in `processShape`
(source lines 556–562): a plain component-wise sum —

```
x:        (parentTransform?.x || 0) + shape.x
y:        (parentTransform?.y || 0) + shape.y
rotation: (parentTransform?.rotation || 0) + (shape.rotation || 0)
scale:    parentTransform?.scale || 1
```
-/
def childAbsoluteTransform (parentTransform : Option AbsoluteTransform) (shape : Shape) :
    AbsoluteTransform :=
  { x := jsOrOpt (parentTransform.map AbsoluteTransform.x) 0 + shape.x
    y := jsOrOpt (parentTransform.map AbsoluteTransform.y) 0 + shape.y
    rotation := jsOrOpt (parentTransform.map AbsoluteTransform.rotation) 0 + jsOr shape.rotation 0
    scale := jsOrOpt (parentTransform.map AbsoluteTransform.scale) 1 }

/-- `processShape` (source lines 552–588): pre-order visit annotating each
shape with its absolute transform and recursing into its `zIndex`-sorted
resolved children. -/
def processShape (shapes : List Shape) : Nat → Option AbsoluteTransform → Shape → List Shape
  | 0, _, _ => []
  | fuel + 1, parentTransform, shape =>
    let absoluteTransform := childAbsoluteTransform parentTransform shape
    let transformedShape := { shape with absoluteTransform := some absoluteTransform }
    let childShapes := sortByZIndex (resolveChildren shapes shape)
    transformedShape :: childShapes.flatMap (processShape shapes fuel (some absoluteTransform))

/-- The recompute path of `getFlattenedShapes`: roots sorted ascending by
`zIndex`, each processed depth-first. -/
def flattenShapes (shapes : List Shape) (fuel : Nat) : List Shape :=
  (sortByZIndex (rootShapesOf shapes)).flatMap (processShape shapes fuel none)

/-- `getFlattenedShapes` recompute with enough fuel for any acyclic store. -/
def getFlattenedShapesFresh (shapes : List Shape) : List Shape :=
  flattenShapes shapes (shapes.length + 1)

/-- `getFlattenedShapes` including the cache check (source lines 539–545 and
598–609).  The source commits the recomputed cache in a deferred
`setTimeout(…, 0)` callback; in this single-threaded model the commit is
performed before the call returns (the callback runs before any later store
operation in the event-loop model). -/
def getFlattenedShapes (st : CanvasState) : List Shape × CanvasState :=
  if st.cache.needsUpdate = false ∧ 0 < st.cache.flattenedShapes.length then
    (st.cache.flattenedShapes, st)
  else
    let result := getFlattenedShapesFresh st.shapes
    (result, { st with cache := { flattenedShapes := result, needsUpdate := false } })

/-! ## Shape Store mutations -/

/-- The `Partial<Shape>` argument of `addShape` (source lines 640–701).
Every field that `addShape` reads is present as an option. -/
structure ShapeInit where
  ty : Option ShapeType
  x : Option ℚ
  y : Option ℚ
  width : Option ℚ
  height : Option ℚ
  fill : Option String
  stroke : Option String
  strokeWidth : Option ℚ
  rotation : Option ℚ
  zIndex : Option ℚ
  isVisible : Option Bool
  isLocked : Option Bool
  name : Option String
  parentId : Option String
  childIds : Option (List String)
  isContainer : Option Bool
  clipContent : Option Bool
  autoResize : Option Bool
deriving Repr, DecidableEq

/-- An `addShape` argument with every key absent. -/
def emptyShapeInit : ShapeInit :=
  ⟨none, none, none, none, none, none, none, none, none, none, none, none, none, none,
   none, none, none, none⟩

/-- `addShape` (source lines 640–701).  `generateId()` (`uuidv4`) is modelled
by the supplied `freshId`; note the source ignores any id on the argument and
always stores the generated one.  `addShape` appends the new id to an
existing parent's `childIds` and — deliberately mirrored here — does **not**
touch the flatten cache. -/
def addShape (st : CanvasState) (freshId : String) (shape : ShapeInit) : CanvasState :=
  let ty := shape.ty.getD ShapeType.rectangle
  let defaultName := shapeTypeName ty ++ " " ++ toString (st.shapes.length + 1)
  let newShape : Shape :=
    { id := freshId
      ty := ty
      x := shape.x.getD 0
      y := shape.y.getD 0
      width := shape.width.getD 100
      height := shape.height.getD 100
      rotation := shape.rotation.getD 0
      fill := shape.fill.getD "#FFFFFF"
      stroke := shape.stroke.getD "#000000"
      strokeWidth := shape.strokeWidth.getD 2
      zIndex := match shape.zIndex with
        | some z => jsOr z (getNextZIndex st.shapes)
        | none => getNextZIndex st.shapes
      isVisible := shape.isVisible != some false
      isLocked := shape.isLocked.getD false
      name := some (match shape.name with
        | some n => if n.isEmpty then defaultName else n
        | none => defaultName)
      parentId := shape.parentId
      childIds := shape.childIds.getD []
      isContainer := shape.isContainer.getD false
      clipContent := shape.clipContent.getD false || shape.ty == some ShapeType.frame
      autoResize := shape.autoResize.getD false || shape.ty == some ShapeType.group
      absoluteTransform := none }
  let updatedShapes :=
    match newShape.parentId with
    | none => st.shapes
    | some pid =>
      if pid.isEmpty then st.shapes
      else
        match st.shapes.findIdx? (fun s => s.id == pid) with
        | none => st.shapes
        | some parentIndex =>
          updateAtIdx st.shapes parentIndex
            (fun parent => { parent with childIds := parent.childIds ++ [freshId] })
  { st with
    shapes := updatedShapes ++ [newShape]
    selectedShapeId := some freshId
    selectedShapeIds := [freshId] }

/-- The `Partial<Shape>` argument of `updateShape`.  For `parentId`, `none`
is an absent key and `some v` a present key with value `v : Option String`
(`some none` = the key explicitly set to `undefined`, exactly what
`moveShapeToParent(id, null)` passes). -/
structure ShapePatch where
  x : Option ℚ
  y : Option ℚ
  width : Option ℚ
  height : Option ℚ
  rotation : Option ℚ
  zIndex : Option ℚ
  parentId : Option (Option String)
  childIds : Option (List String)
deriving Repr, DecidableEq

/-- A patch with every key absent. -/
def emptyPatch : ShapePatch := ⟨none, none, none, none, none, none, none, none⟩

/-- `{ ...currentShape, ...updatedProps }`: object spread copies every
present key, including a key whose value is `undefined`. -/
def applyPatch (s : Shape) (p : ShapePatch) : Shape :=
  { s with
    x := p.x.getD s.x
    y := p.y.getD s.y
    width := p.width.getD s.width
    height := p.height.getD s.height
    rotation := p.rotation.getD s.rotation
    zIndex := p.zIndex.getD s.zIndex
    parentId := match p.parentId with
      | none => s.parentId
      | some v => v
    childIds := p.childIds.getD s.childIds }

/-- `transformChildren` inside `updateShape` (source lines 786–841): walks the
container's children through id lookups, sequentially rewriting each child's
local `x`, `y` and `rotation` in place, and recursing into child containers
with the same deltas.  Fuel bounds the recursion depth. -/
def transformChildrenGo (deltaX deltaY scaleX scaleY deltaRotation : ℚ) :
    Nat → List String → List Shape → List Shape
  | 0, _, shapes => shapes
  | fuel + 1, childIds, shapes =>
    childIds.foldl (fun acc childId =>
      match acc.findIdx? (fun s => s.id == childId) with
      | none => acc
      | some childIndex =>
        match acc[childIndex]? with
        | none => acc
        | some child =>
          let scaling : Bool := scaleX != 1 || scaleY != 1
          let newX := if scaling then child.x * scaleX else child.x + deltaX
          let newY := if scaling then child.y * scaleY else child.y + deltaY
          let newRotation :=
            if deltaRotation != 0 then jsOr child.rotation 0 + deltaRotation
            else jsOr child.rotation 0
          let acc2 := acc.set childIndex { child with x := newX, y := newY, rotation := newRotation }
          if child.isContainer && decide (0 < child.childIds.length) then
            transformChildrenGo deltaX deltaY scaleX scaleY deltaRotation fuel child.childIds acc2
          else acc2) shapes

/-- `updateShape` (source lines 703–928).  In order:
1. unknown id → the state is returned untouched (cache included);
2. the patch is spread onto the shape;
3. if the (pre-patch) shape has a parent that is an auto-resize group, that
   group's `width`/`height` are recomputed from its children;
4. if the patched shape is a container with children and the patch touches
   `x`/`y`/`width`/`height`/`rotation`, `transformChildren` rewrites the
   descendants' local coordinates;
5. if the patch carries a `parentId` key whose value is not `undefined` and
   differs from the current parent, the id is removed from the old parent's
   `childIds` (with auto-resize) and appended to the new parent's `childIds`
   (with auto-resize);
6. the cache is marked dirty. -/
def updateShape (st : CanvasState) (id : String) (updatedProps : ShapePatch) : CanvasState :=
  match st.shapes.findIdx? (fun s => s.id == id) with
  | none => st
  | some shapeIndex =>
    match st.shapes[shapeIndex]? with
    | none => st
    | some currentShape =>
      let oldParentId := currentShape.parentId
      let updatedShape := applyPatch currentShape updatedProps
      let shapes1 := st.shapes.set shapeIndex updatedShape
      let shapes2 :=
        match currentShape.parentId with
        | none => shapes1
        | some pid =>
          if pid.isEmpty then shapes1
          else
            match shapes1.findIdx? (fun s => s.id == pid) with
            | none => shapes1
            | some parentIndex =>
              match shapes1[parentIndex]? with
              | none => shapes1
              | some parent =>
                if parent.ty == ShapeType.group && parent.autoResize then
                  let childShapes := parent.childIds.filterMap
                    (fun childId => shapes1.find? (fun s => s.id == childId))
                  if 0 < childShapes.length then
                    let childBounds := calculateBoundsForChildren childShapes
                    shapes1.set parentIndex
                      { parent with width := childBounds.1, height := childBounds.2 }
                  else shapes1
                else shapes1
      let positionChanged : Bool :=
        updatedProps.x.isSome || updatedProps.y.isSome || updatedProps.rotation.isSome ||
          updatedProps.width.isSome || updatedProps.height.isSome
      let shapes3 :=
        if updatedShape.isContainer && decide (0 < updatedShape.childIds.length) &&
            positionChanged then
          let deltaX := match updatedProps.x with
            | some vx => vx - currentShape.x
            | none => 0
          let deltaY := match updatedProps.y with
            | some vy => vy - currentShape.y
            | none => 0
          let scaleX := match updatedProps.width with
            | some w => if currentShape.width ≠ 0 then w / currentShape.width else 1
            | none => 1
          let scaleY := match updatedProps.height with
            | some h => if currentShape.height ≠ 0 then h / currentShape.height else 1
            | none => 1
          let deltaRotation := match updatedProps.rotation with
            | some r => r - jsOr currentShape.rotation 0
            | none => 0
          transformChildrenGo deltaX deltaY scaleX scaleY deltaRotation
            (st.shapes.length + 1) updatedShape.childIds shapes2
        else shapes2
      let shapes4 :=
        match updatedProps.parentId with
        | none => shapes3
        | some none => shapes3
        | some (some newPid) =>
          if oldParentId == some newPid then shapes3
          else
            let shapesA :=
              match oldParentId with
              | none => shapes3
              | some op =>
                if op.isEmpty then shapes3
                else
                  match shapes3.findIdx? (fun s => s.id == op) with
                  | none => shapes3
                  | some oldParentIndex =>
                    match shapes3[oldParentIndex]? with
                    | none => shapes3
                    | some oldParent =>
                      let l1 := shapes3.set oldParentIndex
                        { oldParent with
                          childIds := oldParent.childIds.filter (fun childId => childId != id) }
                      if oldParent.ty == ShapeType.group && oldParent.autoResize then
                        let remainingChildShapes :=
                          (oldParent.childIds.filter (fun childId => childId != id)).filterMap
                            (fun childId => l1.find? (fun s => s.id == childId))
                        if 0 < remainingChildShapes.length then
                          let newBounds := calculateBoundsForChildren remainingChildShapes
                          updateAtIdx l1 oldParentIndex
                            (fun p => { p with width := newBounds.1, height := newBounds.2 })
                        else l1
                      else l1
            if newPid.isEmpty then shapesA
            else
              match shapesA.findIdx? (fun s => s.id == newPid) with
              | none => shapesA
              | some newParentIndex =>
                match shapesA[newParentIndex]? with
                | none => shapesA
                | some newParent =>
                  let l2 := shapesA.set newParentIndex
                    { newParent with childIds := newParent.childIds ++ [id] }
                  if newParent.ty == ShapeType.group && newParent.autoResize then
                    let childShapes := (newParent.childIds ++ [id]).filterMap
                      (fun childId => l2.find? (fun s => s.id == childId))
                    if 0 < childShapes.length then
                      let newBounds := calculateBoundsForChildren childShapes
                      updateAtIdx l2 newParentIndex
                        (fun p => { p with width := newBounds.1, height := newBounds.2 })
                    else l2
                  else l2
      { st with shapes := shapes4, cache := { st.cache with needsUpdate := true } }

/-- `deleteShape` (source lines 930–973): unknown id → untouched state;
otherwise the shape and its whole descendant set are removed in one step,
the id is detached from its parent's `childIds`, and the selection fields
drop every deleted id. -/
def deleteShape (st : CanvasState) (id : String) : CanvasState :=
  match st.shapes.find? (fun s => s.id == id) with
  | none => st
  | some shape =>
    let descendantIds := getDescendantIds st.shapes id
    let idsToDelete := id :: descendantIds
    let shapes1 :=
      match shape.parentId with
      | none => st.shapes
      | some pid =>
        if pid.isEmpty then st.shapes
        else
          st.shapes.map (fun (s : Shape) =>
            if s.id == pid then
              { s with childIds := s.childIds.filter (fun childId => childId != id) }
            else s)
    let shapes2 := shapes1.filter (fun s => !idsToDelete.contains s.id)
    let newSelectedId :=
      match st.selectedShapeId with
      | none => none
      | some sel => if idsToDelete.contains sel then none else some sel
    { st with
      shapes := shapes2
      selectedShapeId := newSelectedId
      selectedShapeIds := st.selectedShapeIds.filter (fun selId => !idsToDelete.contains selId)
      cache := { st.cache with needsUpdate := true } }

/-- `Math.max(...)` over a spread list; `[]` is unreachable at the call site
(`createGroup` only reaches it with at least two shapes). -/
def maxOfList : List ℚ → ℚ
  | [] => 0
  | q :: qs => qs.foldl max q

/-- `createGroup` (source lines 1123–1190): requires at least two selected
shapes, none already parented; computes the bounding box over their
absolute positions, creates the group there, re-parents the selection into
it translating each member by `-bounds.x, -bounds.y`, and selects the
group.  The fresh `uuidv4()` group id is the supplied `freshGroupId`. -/
def createGroup (st : CanvasState) (freshGroupId : String) : CanvasState :=
  let shapeIds := st.selectedShapeIds
  if shapeIds.length < 2 then st
  else
    let shapesToGroup := st.shapes.filter (fun s => shapeIds.contains s.id)
    if shapesToGroup.length < 2 then st
    else if shapesToGroup.any (fun s => strTruthy s.parentId) then st
    else
      let bounds := calculateGroupBounds shapesToGroup
      let highestZIndex := maxOfList (shapesToGroup.map (fun s => jsOr s.zIndex 0))
      let groupShape : Shape :=
        { id := freshGroupId
          ty := ShapeType.group
          x := bounds.x
          y := bounds.y
          width := bounds.width
          height := bounds.height
          fill := "transparent"
          stroke := "#6366f180"
          strokeWidth := 1
          rotation := 0
          name := some ("Group " ++
            toString ((st.shapes.filter (fun s => s.ty == ShapeType.group)).length + 1))
          isVisible := true
          isLocked := false
          isContainer := true
          childIds := shapeIds
          clipContent := false
          autoResize := true
          zIndex := highestZIndex + 1
          parentId := none
          absoluteTransform := none }
      let updatedShapes := st.shapes.map (fun s =>
        if shapeIds.contains s.id then
          { s with parentId := some freshGroupId, x := s.x - bounds.x, y := s.y - bounds.y }
        else s)
      { st with
        shapes := updatedShapes ++ [groupShape]
        selectedShapeId := some freshGroupId
        selectedShapeIds := [freshGroupId]
        cache := { st.cache with needsUpdate := true } }

/-- `ungroup` (source lines 1193–1222): no-op unless the shape is a container
with at least one child; every shape whose `parentId` is the group gets its
coordinates translated back by `+group.x, +group.y` and its `parentId`
cleared, then the group itself is removed. -/
def ungroup (st : CanvasState) (groupId : String) : CanvasState :=
  match st.shapes.find? (fun s => s.id == groupId) with
  | none => st
  | some group =>
    if !group.isContainer || group.childIds.length == 0 then st
    else
      let updatedShapes := st.shapes.map (fun s =>
        if s.parentId == some groupId then
          { s with parentId := none, x := s.x + group.x, y := s.y + group.y }
        else s)
      { st with
        shapes := updatedShapes.filter (fun s => s.id != groupId)
        selectedShapeId := none
        selectedShapeIds := []
        cache := { st.cache with needsUpdate := true } }

/-- `moveShapeToParent` (source lines 1225–1234): unknown id → no-op;
otherwise delegates to `updateShape` with the patch
`{ parentId: parentId === null ? undefined : parentId }` — the `parentId`
key is always present, a `null` argument becoming an explicit `undefined`
value, hence `some parentId` in the two-level option encoding. -/
def moveShapeToParent (st : CanvasState) (shapeId : String) (parentId : Option String) :
    CanvasState :=
  match st.shapes.find? (fun s => s.id == shapeId) with
  | none => st
  | some _ => updateShape st shapeId { emptyPatch with parentId := some parentId }

/-! ## Selection/Gesture Engine: `resizeSelectedShape` (source lines 1252–1428) -/

/-- The per-handle bounds computation of the `switch (activeHandle)` block
(source lines 1338–1401), before the minimum-size clamp. -/
def resizeRequest (activeHandle : ResizeHandle) (b : Bounds) (deltaX deltaY : ℚ)
    (maintainAspectRatio : Bool) : Bounds :=
  let aspectRatio := b.width / b.height
  match activeHandle with
  | .topLeft =>
    if maintainAspectRatio then
      let scaledDelta := max |deltaX| |deltaY|
      ⟨b.x - scaledDelta, b.y - scaledDelta / aspectRatio,
       b.width + scaledDelta, b.height + scaledDelta / aspectRatio⟩
    else ⟨b.x + deltaX, b.y + deltaY, b.width - deltaX, b.height - deltaY⟩
  | .topRight =>
    if maintainAspectRatio then
      let scaledDelta := max |deltaX| |deltaY|
      ⟨b.x, b.y - scaledDelta / aspectRatio,
       b.width + scaledDelta, b.height + scaledDelta / aspectRatio⟩
    else ⟨b.x, b.y + deltaY, b.width + deltaX, b.height - deltaY⟩
  | .bottomLeft =>
    if maintainAspectRatio then
      let scaledDelta := max |deltaX| |deltaY|
      ⟨b.x - scaledDelta, b.y,
       b.width + scaledDelta, b.height + scaledDelta / aspectRatio⟩
    else ⟨b.x + deltaX, b.y, b.width - deltaX, b.height + deltaY⟩
  | .bottomRight =>
    if maintainAspectRatio then
      let scaledDelta := max |deltaX| |deltaY|
      ⟨b.x, b.y, b.width + scaledDelta, b.height + scaledDelta / aspectRatio⟩
    else ⟨b.x, b.y, b.width + deltaX, b.height + deltaY⟩
  | .top => ⟨b.x, b.y + deltaY, b.width, b.height - deltaY⟩
  | .right => ⟨b.x, b.y, b.width + deltaX, b.height⟩
  | .bottom => ⟨b.x, b.y, b.width, b.height + deltaY⟩
  | .left => ⟨b.x + deltaX, b.y, b.width - deltaX, b.height⟩

/-- The line special case (source lines 1301–1327): only the two endpoints
are draggable, via the `top-left`/`bottom-right` handles; any other handle
leaves the anchor bounds as they are.  No minimum-size clamp follows. -/
def lineResizeRequest (activeHandle : ResizeHandle) (b : Bounds) (deltaX deltaY : ℚ) : Bounds :=
  let endX := b.x + b.width
  let endY := b.y + b.height
  match activeHandle with
  | .topLeft =>
    let newX := b.x + deltaX
    let newY := b.y + deltaY
    ⟨newX, newY, endX - newX, endY - newY⟩
  | .bottomRight => ⟨b.x, b.y, b.width + deltaX, b.height + deltaY⟩
  | _ => b

/-- `resizeSelectedShape` (source lines 1252–1428) for the eight geometric
handles.  Guards mirror the source: no active handle, no selected id, shape
not found, or missing anchor data → untouched state.  Lines take the
endpoint special case and skip the clamp; every other shape type goes
through the `switch` and the final `Math.max(10, …)` clamp. -/
def resizeSelectedShape (st : CanvasState) (currentMousePos : Point)
    (maintainAspectRatio : Bool) : CanvasState :=
  match st.selectionState.activeHandle, st.selectedShapeId with
  | some activeHandle, some selId =>
    match st.shapes.find? (fun s => s.id == selId) with
    | none => st
    | some shape =>
      match st.selectionState.initialMousePos, st.selectionState.initialShapeBounds with
      | some initialMousePos, some initialShapeBounds =>
        let deltaX := currentMousePos.x - initialMousePos.x
        let deltaY := currentMousePos.y - initialMousePos.y
        if shape.ty == ShapeType.line then
          let nb := lineResizeRequest activeHandle initialShapeBounds deltaX deltaY
          { st with
            shapes := st.shapes.map (fun s =>
              if s.id == selId then
                { s with x := nb.x, y := nb.y, width := nb.width, height := nb.height }
              else s)
            cache := { st.cache with needsUpdate := true } }
        else
          let nb := resizeRequest activeHandle initialShapeBounds deltaX deltaY
            maintainAspectRatio
          let newWidth := max 10 nb.width
          let newHeight := max 10 nb.height
          { st with
            shapes := st.shapes.map (fun s =>
              if s.id == selId then
                { s with x := nb.x, y := nb.y, width := newWidth, height := newHeight }
              else s)
            cache := { st.cache with needsUpdate := true } }
      | _, _ => st
  | _, _ => st

/-! ## Spec-side notions -/

/-- The flatten *order* in the words of spec §4.2: every shape contributes its
id followed by the ids of its entire descendant subtree, children resolved
and sorted ascending by `zIndex`, depth-first pre-order. -/
def specSubtreeIds (shapes : List Shape) : Nat → Shape → List String
  | 0, _ => []
  | fuel + 1, s =>
    s.id :: (sortByZIndex (resolveChildren shapes s)).flatMap (specSubtreeIds shapes fuel)

/-- Spec §4.2: root shapes sorted ascending by `zIndex`, each immediately
followed by its whole subtree. -/
def specFlattenedIds (shapes : List Shape) (fuel : Nat) : List String :=
  (sortByZIndex (rootShapesOf shapes)).flatMap (specSubtreeIds shapes fuel)

/-- Spec §3 invariant 2: `child.parentId === p.id ⇔ p.childIds.includes(child.id)`
for every pair of shapes in the store. -/
def PairwiseConsistent (shapes : List Shape) : Prop :=
  ∀ c ∈ shapes, ∀ p ∈ shapes, (c.parentId = some p.id ↔ c.id ∈ p.childIds)

instance (shapes : List Shape) : Decidable (PairwiseConsistent shapes) := by
  unfold PairwiseConsistent; infer_instance

/-- The `parentId` of the shape with a given id, if any. -/
def parentIdOf (shapes : List Shape) (childId : String) : Option String :=
  (shapes.find? (fun s => s.id == childId)).bind Shape.parentId

/-- `Ancestor shapes c p`: `p` is reachable from `c` by one or more
`parentId` steps, i.e. `p` is an ancestor of the shape with id `c`. -/
inductive Ancestor (shapes : List Shape) : String → String → Prop where
  | parent {c p : String} : parentIdOf shapes c = some p → Ancestor shapes c p
  | trans {c m p : String} : Ancestor shapes c m → Ancestor shapes m p → Ancestor shapes c p

/-! ## Concrete scenario states -/

/-- A plain rectangle with `addShape`-style defaults, for building concrete
stores. -/
def baseShape (id : String) : Shape :=
  { id := id
    ty := ShapeType.rectangle
    x := 0
    y := 0
    width := 100
    height := 100
    fill := "#FFFFFF"
    stroke := "#000000"
    strokeWidth := 2
    rotation := 0
    zIndex := 1
    isVisible := true
    isLocked := false
    name := some id
    parentId := none
    childIds := []
    isContainer := false
    clipContent := false
    autoResize := false
    absoluteTransform := none }

/-- A canvas state holding the given shapes and nothing else. -/
def stateWithShapes (shapes : List Shape) : CanvasState :=
  { initialCanvasState with shapes := shapes }

/-- Literal-index list access at 0, for evaluating concrete traces. -/
theorem getElem_shapes_zero (a : Shape) (t : List Shape) (h : 0 < (a :: t).length) :
    (a :: t)[0] = a := rfl

/-- Literal-index list access at 1, for evaluating concrete traces. -/
theorem getElem_shapes_one (a b : Shape) (t : List Shape) (h : 1 < (a :: b :: t).length) :
    (a :: b :: t)[1] = b := rfl

/-- Unfolding lemma for one `processShape` step. -/
theorem processShape_succ (shapes : List Shape) (fuel : Nat)
    (parentTransform : Option AbsoluteTransform) (shape : Shape) :
    processShape shapes (fuel + 1) parentTransform shape =
      { shape with absoluteTransform := some (childAbsoluteTransform parentTransform shape) } ::
        (sortByZIndex (resolveChildren shapes shape)).flatMap
          (processShape shapes fuel (some (childAbsoluteTransform parentTransform shape))) := rfl

/-! ## Claim C1: the absolute-transform recurrence of `getFlattenedShapes` -/

/-- A root container at rotation 90° (claim C1's concrete instance). -/
def c1Root : Shape :=
  { baseShape "r" with
    ty := ShapeType.frame, rotation := 90, childIds := ["c"], isContainer := true, zIndex := 1 }

/-- Its child at local offset `(10, 0)`, own rotation 0. -/
def c1Child : Shape :=
  { baseShape "c" with x := 10, y := 0, parentId := some "r", zIndex := 2 }

/-- C1 counterexample: for a root at rotation 90° with a child at local
`(10, 0)`, `getFlattenedShapes` annotates the child with
`absoluteTransform = {x: 10, y: 0, rotation: 90}` — the local offset is *not*
rotated by the parent's rotation — refuting the claimed
`{x: root.x + 0, y: root.y + 10, rotation: 90}` (the root is at `(0, 0)`). -/
theorem c1_counterexample :
    ((getFlattenedShapesFresh [c1Root, c1Child]).find? (fun s => s.id == "c")).map
        Shape.absoluteTransform =
      some (some { x := 10, y := 0, rotation := 90, scale := 1 }) ∧
    ((getFlattenedShapesFresh [c1Root, c1Child]).find? (fun s => s.id == "c")).map
        Shape.absoluteTransform ≠
      some (some { x := 0, y := 10, rotation := 90, scale := 1 }) := by
  have h : ((getFlattenedShapesFresh [c1Root, c1Child]).find? (fun s => s.id == "c")).map
      Shape.absoluteTransform = some (some { x := 10, y := 0, rotation := 90, scale := 1 }) := by
    norm_num [getFlattenedShapesFresh, flattenShapes, rootShapesOf, sortByZIndex, sortByLe,
      insertByLe, processShape, resolveChildren, childAbsoluteTransform, jsOrOpt, jsOr,
      c1Root, c1Child, baseShape, strTruthy, List.filter, List.find?, List.filterMap,
      List.flatMap]
    simp [String.reduceBEq]
  refine ⟨h, ?_⟩
  rw [h]
  simp [AbsoluteTransform.mk.injEq]

/-- C1 amended: `getFlattenedShapes` computes a child's `absoluteTransform`
by plain component-wise addition, with no rotation of the local offset: for
every store, every root shape `r` and every resolved child `c` of `r`, the
flattened list contains `c` annotated with
`{x := r.x + c.x, y := r.y + c.y, rotation := r.rotation + c.rotation}`
(the rotation-aware math of the spec's formula lives only in the separate
`calculateAbsoluteTransform` render utility, not in the store's flattener). -/
theorem c1_amended (shapes : List Shape) (fuel : Nat) (r c : Shape)
    (hr : r ∈ rootShapesOf shapes) (hc : c ∈ resolveChildren shapes r) :
    { c with absoluteTransform := some ⟨r.x + c.x, r.y + c.y, r.rotation + c.rotation, 1⟩ } ∈
      flattenShapes shapes (fuel + 2) := by
  have habs1 : childAbsoluteTransform none r = ⟨r.x, r.y, r.rotation, 1⟩ := by
    simp [childAbsoluteTransform, jsOrOpt]
  have habs2 :
      childAbsoluteTransform (some ⟨r.x, r.y, r.rotation, 1⟩) c
        = ⟨r.x + c.x, r.y + c.y, r.rotation + c.rotation, (1 : ℚ)⟩ := by
    simp [childAbsoluteTransform, jsOrOpt, jsOr_one_one]
  unfold flattenShapes
  rw [List.mem_flatMap]
  refine ⟨r, mem_sortByZIndex.mpr hr, ?_⟩
  rw [show fuel + 2 = (fuel + 1) + 1 from rfl, processShape_succ]
  apply List.mem_cons_of_mem
  rw [habs1, List.mem_flatMap]
  refine ⟨c, mem_sortByZIndex.mpr hc, ?_⟩
  rw [processShape_succ, habs2]
  exact List.mem_cons_self _ _

/-- C1 amended, witnessed at the 90°-root instance: the child flattens to
absolute `(0 + 10, 0 + 0)` with rotation `90 + 0`. -/
theorem c1_amended_witness :
    c1Root ∈ rootShapesOf [c1Root, c1Child] ∧
    c1Child ∈ resolveChildren [c1Root, c1Child] c1Root ∧
    { c1Child with absoluteTransform := some ⟨c1Root.x + c1Child.x, c1Root.y + c1Child.y,
        c1Root.rotation + c1Child.rotation, 1⟩ } ∈
      flattenShapes [c1Root, c1Child] 2 :=
  ⟨by decide, by decide,
    c1_amended [c1Root, c1Child] 0 c1Root c1Child (by decide) (by decide)⟩

/-! ## Claim C2: hierarchical depth-first pre-order of `getFlattenedShapes` -/

/-- The id sequence produced by `processShape` is exactly the spec's
pre-order subtree id sequence. -/
theorem processShape_map_id (shapes : List Shape) (fuel : Nat) :
    ∀ (parentTransform : Option AbsoluteTransform) (s : Shape),
      (processShape shapes fuel parentTransform s).map Shape.id =
        specSubtreeIds shapes fuel s := by
  induction fuel with
  | zero => intro parentTransform s; rfl
  | succ n ih =>
    intro parentTransform s
    rw [processShape_succ, specSubtreeIds, List.map_cons]
    refine congrArg (List.cons s.id) ?_
    have aux : ∀ (l : List Shape) (t : AbsoluteTransform),
        (l.flatMap (processShape shapes n (some t))).map Shape.id =
          l.flatMap (specSubtreeIds shapes n) := by
      intro l t
      induction l with
      | nil => rfl
      | cons head tail ihl =>
        rw [List.flatMap_cons, List.flatMap_cons, List.map_append, ihl, ih]
    exact aux _ _

/-- Flatten ordering (claim C2's concrete instance): root R1 (zIndex 1) with
child C1 (zIndex 5), root R2 (zIndex 2, no children). -/
def c2R1 : Shape :=
  { baseShape "r1" with
    ty := ShapeType.frame, zIndex := 1, childIds := ["c1"], isContainer := true }

/-- The child `C1` of `R1`, with a zIndex above `R2`'s. -/
def c2C1 : Shape := { baseShape "c1" with zIndex := 5, parentId := some "r1" }

/-- The second root `R2`. -/
def c2R2 : Shape := { baseShape "r2" with zIndex := 2 }

/-- C2: the flatten recompute visits root shapes sorted ascending by
`zIndex`, each immediately followed by its entire descendant subtree with
children sorted ascending by `zIndex`, depth-first pre-order — the id
sequence equals the spec-side order for every store and every fuel — and on
the concrete instance R1 (zIndex 1, child C1 of zIndex 5), R2 (zIndex 2) the
order is `[R1, C1, R2]`: hierarchy dominates sibling zIndex. -/
theorem c2_flatten_order :
    (∀ (shapes : List Shape) (fuel : Nat),
        (flattenShapes shapes fuel).map Shape.id = specFlattenedIds shapes fuel) ∧
    (getFlattenedShapesFresh [c2R1, c2C1, c2R2]).map Shape.id = ["r1", "c1", "r2"] := by
  constructor
  · intro shapes fuel
    unfold flattenShapes specFlattenedIds
    have aux : ∀ (l : List Shape),
        (l.flatMap (processShape shapes fuel none)).map Shape.id =
          l.flatMap (specSubtreeIds shapes fuel) := by
      intro l
      induction l with
      | nil => rfl
      | cons head tail ihl =>
        rw [List.flatMap_cons, List.flatMap_cons, List.map_append, ihl,
          processShape_map_id]
    exact aux _
  · decide

/-! ## Claim C3: `parentId`/`childIds` bidirectional consistency -/

/-- A root shape added through `addShape`. -/
def c3StateA : CanvasState := addShape initialCanvasState "a" emptyShapeInit

/-- A child of `"a"` added through `addShape` (which appends `"b"` to the
parent's `childIds`). -/
def c3StateB : CanvasState := addShape c3StateA "b" { emptyShapeInit with parentId := some "a" }

/-- `moveShapeToParent("b", null)` — the documented way to move a shape back
to the root level. -/
def c3StateC : CanvasState := moveShapeToParent c3StateB "b" none

/-- C3: consistency holds after the two `addShape` calls, but
`moveShapeToParent("b", null)` passes the patch `{parentId: undefined}`,
whose spread clears `"b"`'s `parentId` while the re-parenting branch guard
`newParentId !== undefined` skips the `childIds` fix-up — `"a"` still lists
`"b"` as a child, so the invariant is broken by a three-call sequence of the
claim's own operations. -/
theorem c3_consistency_broken :
    PairwiseConsistent c3StateB.shapes ∧
    parentIdOf c3StateC.shapes "b" = none ∧
    (∃ p ∈ c3StateC.shapes, p.id = "a" ∧ "b" ∈ p.childIds) ∧
    ¬ PairwiseConsistent c3StateC.shapes :=
  ⟨by decide, by decide, by decide, by decide⟩

/-! ## Claim C4: acyclicity of the parent graph -/

/-- A container `"a"` whose only child is `"b"`. -/
def c4ShapeA : Shape :=
  { baseShape "a" with ty := ShapeType.frame, childIds := ["b"], isContainer := true }

/-- The child `"b"` of `"a"`. -/
def c4ShapeB : Shape := { baseShape "b" with parentId := some "a" }

/-- Re-parenting `"a"` under its own child `"b"` — `updateShape` performs no
cycle validation whatsoever. -/
def c4Result : CanvasState :=
  updateShape (stateWithShapes [c4ShapeA, c4ShapeB]) "a"
    { emptyPatch with parentId := some (some "b") }

/-- C4: `updateShape (a, {parentId: b})` with `b` a child of `a` is accepted
(the state changes) and produces a two-cycle: afterwards `a`'s parent is `b`
and `b`'s parent is `a`, so `a` is its own ancestor — no validation rejects
the request. -/
theorem c4_cycle_created :
    parentIdOf c4Result.shapes "a" = some "b" ∧
    parentIdOf c4Result.shapes "b" = some "a" ∧
    c4Result.shapes ≠ (stateWithShapes [c4ShapeA, c4ShapeB]).shapes ∧
    Ancestor c4Result.shapes "a" "a" :=
  ⟨by decide, by decide, by decide,
    Ancestor.trans (@Ancestor.parent c4Result.shapes "a" "b" (by decide))
      (@Ancestor.parent c4Result.shapes "b" "a" (by decide))⟩

/-! ## Claim C5: no stale flatten for a committed state -/

/-- One shape added to a fresh store. -/
def c5StateA : CanvasState := addShape initialCanvasState "s1" emptyShapeInit

/-- A flatten call that fills and commits the cache. -/
def c5StateB : CanvasState := (getFlattenedShapes c5StateA).2

/-- A second `addShape` — which does *not* mark the cache dirty. -/
def c5StateC : CanvasState := addShape c5StateB "s2" emptyShapeInit

/-- C5: after `addShape("s2")` the store holds `[s1, s2]`, but the cache is
still marked clean, so the next `getFlattenedShapes` serves the stale cached
list `[s1]` instead of the flattening of the current store contents —
`addShape` (alone among the mutation entry points) forgets to set
`cache.needsUpdate`. -/
theorem c5_stale_after_addShape :
    c5StateC.shapes.map Shape.id = ["s1", "s2"] ∧
    c5StateC.cache.needsUpdate = false ∧
    ((getFlattenedShapes c5StateC).1).map Shape.id = ["s1"] ∧
    (getFlattenedShapesFresh c5StateC.shapes).map Shape.id = ["s1", "s2"] ∧
    ((getFlattenedShapes c5StateC).1).map Shape.id ≠
      (getFlattenedShapesFresh c5StateC.shapes).map Shape.id := by
  have hcached : ((getFlattenedShapes c5StateC).1).map Shape.id = ["s1"] := by decide
  have hfresh : (getFlattenedShapesFresh c5StateC.shapes).map Shape.id = ["s1", "s2"] := by
    norm_num [c5StateC, c5StateB, c5StateA, addShape, emptyShapeInit, getFlattenedShapes,
      getNextZIndex, initialCanvasState, updateAtIdx, getFlattenedShapesFresh, flattenShapes,
      rootShapesOf, sortByZIndex, sortByLe, insertByLe, processShape, resolveChildren,
      childAbsoluteTransform, jsOrOpt, jsOr, strTruthy, max_def, List.filter, List.find?,
      List.filterMap, List.flatMap]
  refine ⟨by decide, by decide, hcached, hfresh, ?_⟩
  rw [hcached, hfresh]
  decide

/-! ## Claim C6: the ≥10 minimum-size clamp in `resizeSelectedShape` -/

/-- A line from `(0,0)` to `(20,20)`. -/
def c6Line : Shape := { baseShape "l" with ty := ShapeType.line, width := 20, height := 20 }

/-- A gesture dragging the line's `bottom-right` endpoint by `(-15, -15)`. -/
def c6LineState : CanvasState :=
  { stateWithShapes [c6Line] with
    selectedShapeId := some "l"
    selectionState :=
      { selectedShapeId := some "l"
        activeHandle := some ResizeHandle.bottomRight
        initialMousePos := some ⟨100, 100⟩
        initialShapeBounds := some ⟨0, 0, 20, 20⟩ } }

/-- The store after the resize call. -/
def c6LineResult : CanvasState := resizeSelectedShape c6LineState ⟨85, 85⟩ false

/-- C6 counterexample: resizing a *line* to a requested `5 × 5` stores
exactly `5 × 5` — the line special case returns before the
`Math.max(10, …)` clamp, so the claimed "width and height are at least 10
for every shape type" fails. -/
theorem c6_counterexample :
    c6LineResult.shapes.map (fun s => (s.width, s.height)) = [(5, 5)] ∧
    ∃ s ∈ c6LineResult.shapes, s.width < 10 ∧ s.height < 10 := by
  have h : c6LineResult.shapes.map (fun s => (s.width, s.height)) = [((5 : ℚ), (5 : ℚ))] := by
    norm_num [c6LineResult, c6LineState, c6Line, resizeSelectedShape, lineResizeRequest,
      baseShape, stateWithShapes, initialCanvasState, String.reduceBEq]
  refine ⟨h, ?_⟩
  norm_num [c6LineResult, c6LineState, c6Line, resizeSelectedShape, lineResizeRequest,
    baseShape, stateWithShapes, initialCanvasState, String.reduceBEq]

/-- C6 amended: for every shape that is *not* a line, every one of the eight
geometric handles, with or without aspect-ratio lock, the stored width and
height after `resizeSelectedShape` equal `max 10` of the requested values —
at least 10, and exactly 10 whenever the request is below 10.  Lines bypass
the clamp (see the counterexample).  The positivity of the anchor bounds
rules out the division-by-zero aspect-ratio cases that produce `NaN` in
JavaScript (flagged in spec §7) and are inexpressible over `ℚ`. -/
theorem c6_amended (st : CanvasState) (mouse : Point) (aspect : Bool)
    (handle : ResizeHandle) (selId : String) (shape : Shape) (m0 : Point) (b0 : Bounds)
    (hHandle : st.selectionState.activeHandle = some handle)
    (hSel : st.selectedShapeId = some selId)
    (hFind : st.shapes.find? (fun s => s.id == selId) = some shape)
    (hTy : shape.ty ≠ ShapeType.line)
    (hM : st.selectionState.initialMousePos = some m0)
    (hB : st.selectionState.initialShapeBounds = some b0)
    (hw : 0 < b0.width) (hh : 0 < b0.height) :
    ∀ s ∈ (resizeSelectedShape st mouse aspect).shapes, s.id = selId →
      10 ≤ s.width ∧ 10 ≤ s.height ∧
      s.width = max 10 (resizeRequest handle b0 (mouse.x - m0.x) (mouse.y - m0.y) aspect).width ∧
      s.height = max 10 (resizeRequest handle b0 (mouse.x - m0.x) (mouse.y - m0.y) aspect).height := by
  intro s hs hid
  have hline : (shape.ty == ShapeType.line) = false := by
    simpa using hTy
  simp only [resizeSelectedShape, hHandle, hSel, hFind, hM, hB, hline,
    Bool.false_eq_true, if_false] at hs
  obtain ⟨s0, hs0, rfl⟩ := List.mem_map.mp hs
  by_cases h0 : (s0.id == selId) = true
  · rw [if_pos h0]
    exact ⟨le_max_left _ _, le_max_left _ _, rfl, rfl⟩
  · rw [if_neg h0] at hid
    exact absurd hid (by simpa using h0)

/-- A `20 × 20` rectangle. -/
def c6Rect : Shape := { baseShape "r" with width := 20, height := 20 }

/-- A gesture dragging the rectangle's `bottom-right` corner by `(-15, -15)`:
the requested size is `5 × 5`. -/
def c6RectState : CanvasState :=
  { stateWithShapes [c6Rect] with
    selectedShapeId := some "r"
    selectionState :=
      { selectedShapeId := some "r"
        activeHandle := some ResizeHandle.bottomRight
        initialMousePos := some ⟨100, 100⟩
        initialShapeBounds := some ⟨0, 0, 20, 20⟩ } }

/-- C6 amended, witnessed on the rectangle gesture above. -/
theorem c6_amended_witness :
    c6RectState.selectionState.activeHandle = some ResizeHandle.bottomRight ∧
    c6RectState.selectedShapeId = some "r" ∧
    c6RectState.shapes.find? (fun s => s.id == "r") = some c6Rect ∧
    c6Rect.ty ≠ ShapeType.line ∧
    c6RectState.selectionState.initialMousePos = some ⟨100, 100⟩ ∧
    c6RectState.selectionState.initialShapeBounds = some ⟨0, 0, 20, 20⟩ ∧
    (0 : ℚ) < (20 : ℚ) ∧
    (∀ s ∈ (resizeSelectedShape c6RectState ⟨85, 85⟩ false).shapes, s.id = "r" →
      10 ≤ s.width ∧ 10 ≤ s.height ∧
      s.width = max 10 (resizeRequest ResizeHandle.bottomRight ⟨0, 0, 20, 20⟩
        ((85 : ℚ) - 100) ((85 : ℚ) - 100) false).width ∧
      s.height = max 10 (resizeRequest ResizeHandle.bottomRight ⟨0, 0, 20, 20⟩
        ((85 : ℚ) - 100) ((85 : ℚ) - 100) false).height) :=
  ⟨by decide, by decide, by decide, by decide, by decide, by decide, by norm_num,
    c6_amended c6RectState ⟨85, 85⟩ false ResizeHandle.bottomRight "r" c6Rect
      ⟨100, 100⟩ ⟨0, 0, 20, 20⟩ (by decide) (by decide) (by decide) (by decide)
      (by decide) (by decide) (by norm_num) (by norm_num)⟩

/-! ## Claim C7: container edits and descendants' local coordinates -/

/-- A container `"g"` at `(0,0)` with one child. -/
def c7Group : Shape :=
  { baseShape "g" with ty := ShapeType.frame, childIds := ["a"], isContainer := true }

/-- The child at local `(5, 5)`. -/
def c7Child : Shape := { baseShape "a" with x := 5, y := 5, parentId := some "g" }

/-- Moving the container to `x = 10` through `updateShape`. -/
def c7Result : CanvasState :=
  updateShape (stateWithShapes [c7Group, c7Child]) "g" { emptyPatch with x := some 10 }

/-- C7: `updateShape("g", {x: 10})` on a container does *not* leave the
child's local coordinates unchanged — `transformChildren` adds the parent's
delta to the child, rewriting its local `x` from 5 to 15 (the spec flags
this very behavior as the double-apply defect). -/
theorem c7_children_rewritten :
    ((stateWithShapes [c7Group, c7Child]).shapes.find? (fun s => s.id == "a")).map Shape.x =
      some 5 ∧
    (c7Result.shapes.find? (fun s => s.id == "a")).map Shape.x = some 15 ∧
    some (15 : ℚ) ≠ some (5 : ℚ) := by
  refine ⟨by decide, ?_, by norm_num⟩
  norm_num [c7Result, c7Group, c7Child, updateShape, applyPatch, transformChildrenGo,
    emptyPatch, updateAtIdx, calculateBoundsForChildren, jsOr, baseShape, stateWithShapes,
    initialCanvasState, List.findIdx?, List.set, List.find?, List.filterMap]
  simp [String.reduceBEq, getElem_shapes_zero, getElem_shapes_one]
  norm_num

/-! ## Claim C8: `ungroup ∘ createGroup` round trip -/

/-- Finding the freshly appended group: every mapped original keeps its id,
none of which is the group id, so `find?` lands on the appended group. -/
theorem find?_gid_map_append_group (l : List Shape) (gid : String) (f : Shape → Shape)
    (group : Shape)
    (hids : ∀ s ∈ l, (f s).id = s.id) (hfr : ∀ s ∈ l, s.id ≠ gid)
    (hgid : group.id = gid) :
    (l.map f ++ [group]).find? (fun s => s.id == gid) = some group := by
  rw [List.find?_append]
  have h1 : (l.map f).find? (fun s => s.id == gid) = none := by
    rw [List.find?_eq_none]
    intro x hx
    obtain ⟨s, hs, rfl⟩ := List.mem_map.mp hx
    simp [hids s hs, hfr s hs]
  rw [h1]
  simp [List.find?, hgid]

/-- If `g ∘ f` restores every element of `l` and the filter keeps every
element of `l`, the map-map-filter chain is the identity on `l`. -/
theorem map_map_filter_id (g f : Shape → Shape) (q : Shape → Bool) :
    ∀ l : List Shape, (∀ s ∈ l, g (f s) = s) → (∀ s ∈ l, q s = true) →
      ((l.map f).map g).filter q = l := by
  intro l
  induction l with
  | nil => intro _ _; rfl
  | cons a t ih =>
    intro h1 h2
    have ha1 : g (f a) = a := h1 a (List.mem_cons_self a t)
    have ha2 : q a = true := h2 a (List.mem_cons_self a t)
    simp only [List.map_cons, List.filter_cons, ha1, ha2, if_true]
    rw [ih (fun s hs => h1 s (List.mem_cons_of_mem _ hs))
      (fun s hs => h2 s (List.mem_cons_of_mem _ hs))]

/-- C8: for any store in which at least two shapes are selected, all selected
shapes exist, none of them has a parent, and `gid` is fresh (no shape carries
it as id or as a dangling `parentId`), `ungroup (createGroup …)` restores the
shape list exactly: every grouped shape returns to its original absolute
position (`(x - bounds.x) + group.x = x`, exactly over `ℚ`, "within
floating-point tolerance" in JavaScript), its `parentId` is cleared back to
`none`, and the group shape is removed — the group's rotation is 0 by
construction. -/
theorem c8_group_ungroup_roundtrip (st : CanvasState) (gid : String)
    (hlen : 2 ≤ st.selectedShapeIds.length)
    (hsel : 2 ≤ (st.shapes.filter (fun s => st.selectedShapeIds.contains s.id)).length)
    (hroot : ∀ s ∈ st.shapes, st.selectedShapeIds.contains s.id = true → s.parentId = none)
    (hfresh : ∀ s ∈ st.shapes, s.id ≠ gid)
    (hnoref : ∀ s ∈ st.shapes, s.parentId ≠ some gid) :
    (ungroup (createGroup st gid) gid).shapes = st.shapes := by
  have h1 : ¬ st.selectedShapeIds.length < 2 := by omega
  have h2 : ¬ (st.shapes.filter (fun s => st.selectedShapeIds.contains s.id)).length < 2 := by
    omega
  have hany : (st.shapes.filter (fun s => st.selectedShapeIds.contains s.id)).any
      (fun s => strTruthy s.parentId) = false := by
    rw [List.any_eq_false]
    intro s hs
    rw [hroot s (List.mem_filter.mp hs).1 (List.mem_filter.mp hs).2]
    simp [strTruthy]
  simp only [createGroup]
  rw [if_neg h1, if_neg h2, hany]
  simp only [Bool.false_eq_true, if_false]
  simp only [ungroup]
  rw [find?_gid_map_append_group _ _ _ _ ?hids ?hfr ?hgid]
  case hids =>
    intro s hs
    split <;> rfl
  case hfr => exact hfresh
  case hgid => rfl
  simp only []
  rw [if_neg (by simp only [Bool.not_true, Bool.false_or, beq_iff_eq]; omega)]
  simp only [List.map_append, List.filter_append, List.map_cons, List.map_nil,
    List.filter_cons, List.filter_nil]
  rw [map_map_filter_id _ _ _ _ ?hgf ?hkeep]
  case hgf =>
    intro s hs
    by_cases hc : st.selectedShapeIds.contains s.id = true
    · have hp : s.parentId = none := hroot s hs hc
      rw [if_pos hc]
      simp only [beq_self_eq_true, eq_self_iff_true, if_true]
      rw [sub_add_cancel, sub_add_cancel, ← hp]
    · have hpn : (s.parentId == some gid) = false := by
        simpa using hnoref s hs
      rw [if_neg hc]
      simp only [hpn, Bool.false_eq_true, if_false]
  case hkeep =>
    intro s hs
    simpa using hfresh s hs
  have hgG : ((none : Option String) == some gid) = false := rfl
  simp [hgG]

/-- Two parentless selected rectangles, the spec §8 group-bbox pair. -/
def c8ShapeA : Shape := { baseShape "A" with width := 10, height := 10 }

/-- The second selected rectangle at `(20, 20)`. -/
def c8ShapeB : Shape := { baseShape "B" with x := 20, y := 20, width := 10, height := 10 }

/-- The store with both rectangles selected. -/
def c8State : CanvasState :=
  { stateWithShapes [c8ShapeA, c8ShapeB] with selectedShapeIds := ["A", "B"] }

/-- C8, witnessed: grouping the two rectangles under the fresh id `"G"` and
immediately ungrouping restores the shape list exactly. -/
theorem c8_roundtrip_witness :
    2 ≤ c8State.selectedShapeIds.length ∧
    2 ≤ (c8State.shapes.filter (fun s => c8State.selectedShapeIds.contains s.id)).length ∧
    (∀ s ∈ c8State.shapes, c8State.selectedShapeIds.contains s.id = true → s.parentId = none) ∧
    (∀ s ∈ c8State.shapes, s.id ≠ "G") ∧
    (∀ s ∈ c8State.shapes, s.parentId ≠ some "G") ∧
    (ungroup (createGroup c8State "G") "G").shapes = c8State.shapes :=
  ⟨by decide, by decide, by decide, by decide, by decide,
    c8_group_ungroup_roundtrip c8State "G" (by decide) (by decide) (by decide) (by decide)
      (by decide)⟩

/-! ## Claim C9: unknown ids are silent no-ops -/

/-- C9: for an id that no shape in the store carries, both `updateShape` (any
patch) and `deleteShape` return the state completely unchanged — shapes,
selection and cache included. -/
theorem c9_unknown_id_noop (st : CanvasState) (id : String) (patch : ShapePatch)
    (h : ∀ s ∈ st.shapes, s.id ≠ id) :
    updateShape st id patch = st ∧ deleteShape st id = st := by
  have hfi : st.shapes.findIdx? (fun s => s.id == id) = none := by
    rw [List.findIdx?_eq_none_iff]
    intro s hs
    simpa using h s hs
  have hf : st.shapes.find? (fun s => s.id == id) = none := by
    rw [List.find?_eq_none]
    intro s hs
    simpa using h s hs
  constructor
  · simp only [updateShape, hfi]
  · simp only [deleteShape, hf]

/-- A one-shape store for the C9 witness. -/
def c9State : CanvasState := stateWithShapes [baseShape "a"]

/-- C9, witnessed: `"zzz"` is unknown, and both operations leave the state
untouched. -/
theorem c9_noop_witness :
    (∀ s ∈ c9State.shapes, s.id ≠ "zzz") ∧
    (updateShape c9State "zzz" emptyPatch = c9State ∧ deleteShape c9State "zzz" = c9State) :=
  ⟨by decide, c9_unknown_id_noop c9State "zzz" emptyPatch (by decide)⟩

/-! ## Claim C10: a supplied `zIndex` of 0 is treated as unset -/

/-- C10: `addShape` computes the stored `zIndex` as
`shape.zIndex || getNextZIndex()`: an explicit 0 — like an absent value — is
falsy and is replaced by `getNextZIndex()`, i.e.
`reduce(max(…, zIndex || 0), 0) + 1` over the existing shapes. -/
theorem c10_zero_zIndex_reassigned (st : CanvasState) (freshId : String) (init : ShapeInit)
    (h : init.zIndex = some 0 ∨ init.zIndex = none) :
    ((addShape st freshId init).shapes.getLast?).map Shape.zIndex =
      some (getNextZIndex st.shapes) := by
  simp only [addShape]
  rw [List.getLast?_concat]
  rcases h with h | h <;> simp [h, jsOr]

/-- A store whose single shape has `zIndex` 7. -/
def c10State : CanvasState := stateWithShapes [{ baseShape "a" with zIndex := 7 }]

/-- C10, witnessed: adding a shape with an explicit `zIndex: 0` next to a
shape of `zIndex` 7 stores `zIndex = 8 = max(existing, 0) + 1`. -/
theorem c10_zero_zIndex_witness :
    (({ emptyShapeInit with zIndex := some 0 } : ShapeInit).zIndex = some 0 ∨
      ({ emptyShapeInit with zIndex := some 0 } : ShapeInit).zIndex = none) ∧
    ((addShape c10State "n" { emptyShapeInit with zIndex := some 0 }).shapes.getLast?).map
        Shape.zIndex = some (getNextZIndex c10State.shapes) ∧
    getNextZIndex c10State.shapes = 8 :=
  ⟨Or.inl rfl,
    c10_zero_zIndex_reassigned c10State "n" { emptyShapeInit with zIndex := some 0 }
      (Or.inl rfl),
    by norm_num [getNextZIndex, c10State, stateWithShapes, baseShape, initialCanvasState,
      jsOr, max_def]⟩

end Chitrapata
